import Mathlib

/-!
Shallow embedding of the outage-tracker backend (src/server.js).

The server is a small CRUD API over a collection of `Outage` records.
We embed the data model and the route handlers as pure Lean functions over
an explicit store (`List Outage`), with timestamps as integer milliseconds
since the epoch and JavaScript number arithmetic modelled by exact
rationals (`Rat`).  Mongo object ids are modelled by `Nat`; an incoming id
parameter is either syntactically well-formed (carrying a `Nat`) or
malformed, mirroring the `isValidObjectId` guard.  Absent HTTP headers and
absent environment variables are modelled by `Option String`, so that the
JavaScript comparison `req.headers[..] !== process.env.ADMIN_PASSWORD`
becomes decidable equality on `Option String`.
-/

/-- The `service` enum of `outageSchema`:
`["Electricity", "Water", "Internet", "Transport"]`. -/
inductive Service where
  | electricity
  | water
  | internet
  | transport
deriving DecidableEq, Repr

/-- The `status` enum of `outageSchema`: `["ongoing", "resolved"]`. -/
inductive Status where
  | ongoing
  | resolved
deriving DecidableEq, Repr

/-- The `confidenceLevel` enum of `outageSchema`:
`["unverified", "likely", "confirmed"]`. -/
inductive Confidence where
  | unverified
  | likely
  | confirmed
deriving DecidableEq, Repr

/-- One document of the `Outage` model.  `downTime`, `upTime` and
`createdAt` are epoch milliseconds; `durationMinutes` is a JavaScript
number, modelled as `Rat`. -/
structure Outage where
  id : Nat
  service : Service
  area : String
  downTime : Int
  upTime : Option Int
  durationMinutes : Option Rat
  status : Status
  confirmCount : Nat
  confidenceLevel : Confidence
  createdAt : Int
deriving DecidableEq, Repr

/-- `getConfidenceLevel` from src/server.js:
`count >= 3 → "confirmed"; count === 2 → "likely"; else "unverified"`. -/
def getConfidenceLevel (count : Nat) : Confidence :=
  if count ≥ 3 then .confirmed
  else if count = 2 then .likely
  else .unverified

/-- An `:id` route parameter: either a syntactically valid object id
(`isValidObjectId` true, carrying the id) or a malformed string
(`isValidObjectId` false). -/
inductive RawId where
  | malformed (s : String)
  | wellFormed (id : Nat)
deriving DecidableEq, Repr

/-- Body of `POST /api/outages` after JSON parsing; `none` models an
absent field (falsy in the `!service || !area || !downTime` guard), and
an empty `area` string is likewise falsy. -/
structure ReportBody where
  service : Option Service
  area : Option String
  downTime : Option Int
deriving DecidableEq, Repr

/-- Outcome of `POST /api/outages`: 400 "Missing required fields",
200 `{ message: "Confirmation added", outage }`, or 201 with the created
record. -/
inductive ReportResult where
  | validationError
  | confirmationAdded (outage : Outage)
  | created (outage : Outage)
deriving DecidableEq, Repr

/-- `Outage.findOne({ service, area, status: "ongoing" })`: first stored
record matching the three equality filters. -/
def findOngoing (store : List Outage) (s : Service) (a : String) : Option Outage :=
  store.find? (fun o => o.service == s && o.area == a && o.status == Status.ongoing)

/-- Persisting `existing.save()`: every stored record with the given id is
replaced by the updated document. -/
def updateById (store : List Outage) (id : Nat) (u : Outage) : List Outage :=
  store.map (fun o => if o.id = id then u else o)

/-- The `POST /api/outages` handler.  `now` is the server clock used for
`createdAt`; `freshId` is the object id Mongo assigns on insert. -/
def reportOutage (store : List Outage) (body : ReportBody) (now : Int)
    (freshId : Nat) : ReportResult × List Outage :=
  match body.service, body.area, body.downTime with
  | some s, some a, some dt =>
    if a = "" then (.validationError, store)
    else
      match findOngoing store s a with
      | some existing =>
        let updated := { existing with
          confirmCount := existing.confirmCount + 1
          confidenceLevel := getConfidenceLevel (existing.confirmCount + 1) }
        (.confirmationAdded updated, updateById store existing.id updated)
      | none =>
        let o : Outage :=
          { id := freshId, service := s, area := a, downTime := dt
            upTime := none, durationMinutes := none, status := .ongoing
            confirmCount := 1, confidenceLevel := .unverified, createdAt := now }
        (.created o, store ++ [o])
  | _, _, _ => (.validationError, store)

/-- Outcome of `PUT /api/outages/:id/restore`: 400 "Invalid ID",
404 "Not found", 400 "Already resolved", or the updated record. -/
inductive RestoreResult where
  | invalidId
  | notFound
  | alreadyResolved
  | restored (outage : Outage)
deriving DecidableEq, Repr

/-- The `PUT /api/outages/:id/restore` handler.  `now` is the server
clock (`new Date()`); `durationMinutes = (upTime - downTime) / 60000`
with JavaScript number division modelled as exact rational division. -/
def restoreOutage (store : List Outage) (rawId : RawId) (now : Int) :
    RestoreResult × List Outage :=
  match rawId with
  | .malformed _ => (.invalidId, store)
  | .wellFormed id =>
    match store.find? (fun o => o.id == id) with
    | none => (.notFound, store)
    | some outage =>
      if outage.status == Status.resolved then (.alreadyResolved, store)
      else
        let updated := { outage with
          upTime := some now
          durationMinutes := some (((now : Rat) - (outage.downTime : Rat)) / 60000)
          status := .resolved }
        (.restored updated, updateById store id updated)

/-- Outcome of `DELETE /api/outages/:id`: 403 "Forbidden",
400 "Invalid ID", or `{ message: "Deleted" }`. -/
inductive DeleteResult where
  | forbidden
  | invalidId
  | deleted
deriving DecidableEq, Repr

/-- The `DELETE /api/outages/:id` handler.  `supplied` is the
`x-admin-password` header (`none` when absent), `configured` is
`process.env.ADMIN_PASSWORD` (`none` when unset); the guard is the
JavaScript strict inequality `!==`.  `findByIdAndDelete` removes the
matching record if present and is silent otherwise. -/
def deleteOutage (store : List Outage) (supplied configured : Option String)
    (rawId : RawId) : DeleteResult × List Outage :=
  if supplied ≠ configured then (.forbidden, store)
  else
    match rawId with
    | .malformed _ => (.invalidId, store)
    | .wellFormed id => (.deleted, store.filter (fun o => o.id != id))

/-- The JavaScript idiom `obj[k] = (obj[k] || 0) + v` on a plain object,
with the object as an association list in key-insertion order: an existing
entry is updated in place, a missing one is appended. -/
def bump [DecidableEq α] [Add β] : List (α × β) → α → β → List (α × β)
  | [], k, v => [(k, v)]
  | (k', v') :: rest, k, v =>
    if k' = k then (k', v' + v) :: rest else (k', v') :: bump rest k v

/-- Property read `obj[k]` on an association-list object. -/
def alookup [DecidableEq α] (k : α) : List (α × β) → Option β
  | [] => none
  | (k', v) :: rest => if k' = k then some v else alookup k rest

/-- The `GET /api/outages/stats` response when resolved outages exist. -/
structure Stats where
  totalDowntimeMinutes : Rat
  averageDowntimeMinutes : Rat
  serviceWiseDowntime : List (Service × Rat)
  reliabilityScores : List (Service × Rat)
deriving DecidableEq, Repr

/-- Outcome of `GET /api/outages/stats`: the empty object `{}` or the
stats object. -/
inductive StatsResult where
  | emptyObject
  | stats (s : Stats)
deriving DecidableEq, Repr

/-- The `GET /api/outages/stats` handler.  The `forEach` accumulates
`totalMinutes` and the `serviceTotals` object in one pass; JavaScript
`number + null` is `number`, so a `null` `durationMinutes` contributes 0
(`Option.getD 0`).  `reliability` is a fresh object built by the `for-in`
loop over `serviceTotals`, which enumerates string keys in insertion
order. -/
def computeStats (store : List Outage) : StatsResult :=
  let outages := store.filter (fun o => o.status == Status.resolved)
  if outages.isEmpty then .emptyObject
  else
    let acc := outages.foldl
      (fun acc o =>
        (acc.1 + o.durationMinutes.getD 0,
         bump acc.2 o.service (o.durationMinutes.getD 0)))
      ((0 : Rat), ([] : List (Service × Rat)))
    .stats
      { totalDowntimeMinutes := acc.1
        averageDowntimeMinutes := acc.1 / (outages.length : Rat)
        serviceWiseDowntime := acc.2
        reliabilityScores := acc.2.map (fun p => (p.1, max 0 (100 - p.2 / 60 * 2))) }

/-- `Date.prototype.getHours` (0–23) on an epoch-millisecond timestamp,
with the server clock taken as UTC. -/
def hourOf (t : Int) : Nat := ((t.ediv 3600000).emod 24).toNat

/-- `Date.prototype.getDay` (0 = Sunday .. 6 = Saturday) on an
epoch-millisecond timestamp (the epoch, day 0, was a Thursday). -/
def dayOf (t : Int) : Nat := ((t.ediv 86400000 + 4).emod 7).toNat

/-- The count stored at integer key `k` of the tally object built by
`obj[f(o)] = (obj[f(o)] || 0) + 1` over the scan. -/
def countBy (store : List Outage) (f : Outage → Nat) (k : Nat) : Nat :=
  (store.filter (fun o => f o == k)).length

/-- `Object.keys` of a tally object whose keys are integer-like strings
below `bound` (hours < 24, weekdays < 7): JavaScript enumerates such
keys in ascending numeric order, regardless of insertion order, and a
key is present iff its count is nonzero. -/
def presentKeys (store : List Outage) (f : Outage → Nat) (bound : Nat) : List Nat :=
  (List.range bound).filter (fun k => countBy store f k ≠ 0)

/-- The `maxKey` helper:
`Object.keys(obj).reduce((a, b) => obj[a] > obj[b] ? a : b)`.
`reduce` with no initial value starts from the first key and throws on an
empty object (`none` here; both call sites are guarded by a nonempty
scan, so the keys are never empty). -/
def jsMaxKey (count : Nat → Nat) : List Nat → Option Nat
  | [] => none
  | k :: rest => some (rest.foldl (fun a b => if count a > count b then a else b) k)

/-- The `GET /api/outages/insights` response when outages exist. -/
structure Insights where
  peakOutageHour : Nat
  worstDayOfWeek : Nat
  recurringAreas : List (String × Nat)
deriving DecidableEq, Repr

/-- Outcome of `GET /api/outages/insights`: the empty object `{}` or the
insights object. -/
inductive InsightsResult where
  | emptyObject
  | insights (i : Insights)
deriving DecidableEq, Repr

/-- The `GET /api/outages/insights` handler: scans all outages (any
status), tallies hours of `downTime`, weekdays of `downTime` and areas,
then takes `maxKey` of the hour and weekday tallies and returns the area
tally whole. -/
def computeInsights (store : List Outage) : InsightsResult :=
  if store.isEmpty then .emptyObject
  else
    .insights
      { peakOutageHour :=
          (jsMaxKey (countBy store (fun o => hourOf o.downTime))
            (presentKeys store (fun o => hourOf o.downTime) 24)).getD 0
        worstDayOfWeek :=
          (jsMaxKey (countBy store (fun o => dayOf o.downTime))
            (presentKeys store (fun o => dayOf o.downTime) 7)).getD 0
        recurringAreas :=
          store.foldl (fun m o => bump m o.area 1) ([] : List (String × Nat)) }

/-- Modelled from the claim's words for C7: the key with the highest
count, "ties broken by the first maximal key encountered in the scan's
iteration order" — scanning the key list, a later key replaces the
running best only when its count is strictly larger. -/
def firstMaxKeySpec (count : Nat → Nat) : List Nat → Option Nat
  | [] => none
  | k :: rest =>
    match firstMaxKeySpec count rest with
    | none => some k
    | some m => if count m > count k then some m else some k

/-- The key with the highest count, ties broken by the last maximal key
encountered in the key list's iteration order: a later key replaces the
running best whenever its count is at least as large. -/
def lastMaxKeySpec (count : Nat → Nat) : List Nat → Option Nat
  | [] => none
  | k :: rest =>
    match lastMaxKeySpec count rest with
    | none => some k
    | some m => if count k > count m then some k else some m

/-- Concrete fixture: an ongoing Internet outage in area "X" whose
`downTime` falls in hour 1 of day 0 (a Thursday). -/
def oA : Outage :=
  { id := 1, service := .internet, area := "X", downTime := 3600000
    upTime := none, durationMinutes := none, status := .ongoing
    confirmCount := 1, confidenceLevel := .unverified, createdAt := 0 }

/-- Concrete fixture: an ongoing Internet outage in area "Y" whose
`downTime` falls in hour 2 of day 0. -/
def oB : Outage :=
  { id := 2, service := .internet, area := "Y", downTime := 7200000
    upTime := none, durationMinutes := none, status := .ongoing
    confirmCount := 1, confidenceLevel := .unverified, createdAt := 0 }

/-- Concrete fixture: the record produced by restoring `oA` at time
3690000 (90 seconds after its `downTime`). -/
def rRestoredA : Outage :=
  { oA with
    upTime := some 3690000,
    durationMinutes := some ((((3690000 : Int) : Rat) - ((3600000 : Int) : Rat)) / 60000),
    status := .resolved }

/-- Concrete fixture: a resolved Internet outage lasting 60 minutes. -/
def rA : Outage :=
  { oA with status := .resolved, upTime := some 7200000, durationMinutes := some 60 }

/-- Concrete fixture: a resolved Internet outage lasting 120 minutes. -/
def rB : Outage :=
  { oB with status := .resolved, upTime := some 14400000, durationMinutes := some 120 }

/- ------------------------------------------------------------------ -/
/- Helper lemmas                                                      -/
/- ------------------------------------------------------------------ -/

theorem alookup_bump [DecidableEq α] [AddMonoid β] (m : List (α × β))
    (k k' : α) (v : β) :
    alookup k (bump m k' v) =
      if k' = k then some ((alookup k m).getD 0 + v) else alookup k m := by
  induction m with
  | nil =>
    by_cases h : k' = k <;> simp [bump, alookup, h]
  | cons p rest ih =>
    obtain ⟨a, b⟩ := p
    by_cases h1 : a = k'
    · subst h1
      by_cases h2 : a = k <;> simp [bump, alookup, h2, ih]
    · by_cases h2 : a = k
      · subst h2
        simp [bump, alookup, h1, Ne.symm h1, ih]
      · by_cases h3 : k' = k
        · subst h3
          simp [bump, alookup, h1, h2, ih]
        · simp [bump, alookup, h1, h2, h3, ih]

theorem alookup_foldl_bump [DecidableEq α] [AddMonoid β]
    (key : Outage → α) (val : Outage → β) (k : α) (l : List Outage)
    (m : List (α × β)) :
    alookup k (l.foldl (fun m o => bump m (key o) (val o)) m) =
      if l.any (fun o => key o == k) || (alookup k m).isSome
      then some ((alookup k m).getD 0 + ((l.filter (fun o => key o == k)).map val).sum)
      else none := by
  induction l generalizing m with
  | nil =>
    cases h : alookup k m <;> simp [h]
  | cons o rest ih =>
    by_cases h : key o = k
    · have hb : (key o == k) = true := by simp [h]
      rw [List.foldl_cons, ih]
      simp only [alookup_bump, h, if_pos rfl, List.any_cons, hb, List.filter_cons, hb]
      simp [add_assoc]
    · have hb : (key o == k) = false := by simp [h]
      rw [List.foldl_cons, ih]
      simp only [alookup_bump, h, if_neg h, List.any_cons, hb, List.filter_cons]
      simp

theorem alookup_map_snd [DecidableEq α] (g : β → γ) (m : List (α × β)) (k : α) :
    alookup k (m.map (fun p => (p.1, g p.2))) = (alookup k m).map g := by
  induction m with
  | nil => simp [alookup]
  | cons p rest ih =>
    by_cases h : p.1 = k <;> simp [alookup, h, ih]

theorem find?_updateById (store : List Outage) (id : Nat) (u : Outage)
    (hu : u.id = id)
    (h : (store.find? (fun o => o.id == id)).isSome) :
    (updateById store id u).find? (fun o => o.id == id) = some u := by
  induction store with
  | nil => simp at h
  | cons o rest ih =>
    by_cases ho : o.id = id
    · simp [updateById, List.find?_cons, ho, hu]
    · have hb : (o.id == id) = false := by simp [ho]
      simp only [updateById, List.map_cons, if_neg ho, List.find?_cons, hb] at *
      exact ih h

theorem lastMax_eq_none (count : Nat → Nat) (l : List Nat) :
    lastMaxKeySpec count l = none ↔ l = [] := by
  cases l with
  | nil => simp [lastMaxKeySpec]
  | cons k rest =>
    simp only [lastMaxKeySpec]
    constructor
    · intro h
      split at h
      · simp at h
      · split at h <;> simp at h
    · intro h
      simp at h

theorem foldl_jsMax_eq (count : Nat → Nat) (l : List Nat) (a : Nat) :
    l.foldl (fun a b => if count a > count b then a else b) a =
      match lastMaxKeySpec count l with
      | none => a
      | some m => if count a > count m then a else m := by
  induction l generalizing a with
  | nil => simp [lastMaxKeySpec]
  | cons b rest ih =>
    rw [List.foldl_cons, ih]
    simp only [lastMaxKeySpec]
    cases hm : lastMaxKeySpec count rest with
    | none => simp
    | some m =>
      simp
      by_cases h1 : count m < count b
      · simp [h1]
        split_ifs <;> first | rfl | omega
      · simp [h1]
        split_ifs <;> first | rfl | omega

theorem jsMaxKey_eq_lastMax (count : Nat → Nat) (l : List Nat) :
    jsMaxKey count l = lastMaxKeySpec count l := by
  cases l with
  | nil => rfl
  | cons k rest =>
    simp only [jsMaxKey, foldl_jsMax_eq, lastMaxKeySpec]
    cases hm : lastMaxKeySpec count rest with
    | none => simp
    | some m =>
      simp only []
      split_ifs <;> rfl

theorem lastMax_mem (count : Nat → Nat) (l : List Nat) (m : Nat)
    (h : lastMaxKeySpec count l = some m) : m ∈ l := by
  induction l generalizing m with
  | nil => simp [lastMaxKeySpec] at h
  | cons k rest ih =>
    simp only [lastMaxKeySpec] at h
    split at h
    · simp at h
      simp [h]
    · rename_i m' hm
      split at h <;> simp at h
      · simp [h]
      · subst h
        exact List.mem_cons_of_mem _ (ih _ hm)

theorem lastMax_maximal (count : Nat → Nat) (l : List Nat) (m : Nat)
    (h : lastMaxKeySpec count l = some m) :
    ∀ k ∈ l, count k ≤ count m := by
  induction l generalizing m with
  | nil => simp
  | cons k rest ih =>
    simp only [lastMaxKeySpec] at h
    split at h
    · rename_i hm
      have hrest : rest = [] := (lastMax_eq_none count rest).1 hm
      simp at h
      subst h hrest
      simp
    · rename_i m' hm
      have hrest := ih m' hm
      intro k' hk'
      rcases List.mem_cons.1 hk' with h1 | h1
      · subst h1
        split at h <;> simp at h <;> subst h
        · exact le_refl _
        · omega
      · have hk'le := hrest k' h1
        split at h <;> simp at h <;> subst h
        · omega
        · exact hk'le

theorem statsFold_fst (l : List Outage) (t0 : Rat) (m0 : List (Service × Rat)) :
    (l.foldl
      (fun acc o =>
        (acc.1 + o.durationMinutes.getD 0,
         bump acc.2 o.service (o.durationMinutes.getD 0)))
      (t0, m0)).1 = t0 + (l.map (fun o => o.durationMinutes.getD 0)).sum := by
  induction l generalizing t0 m0 with
  | nil => simp
  | cons o rest ih => simp [ih, add_assoc]

theorem statsFold_snd (l : List Outage) (t0 : Rat) (m0 : List (Service × Rat)) :
    (l.foldl
      (fun acc o =>
        (acc.1 + o.durationMinutes.getD 0,
         bump acc.2 o.service (o.durationMinutes.getD 0)))
      (t0, m0)).2 =
      l.foldl (fun m o => bump m o.service (o.durationMinutes.getD 0)) m0 := by
  induction l generalizing t0 m0 with
  | nil => rfl
  | cons o rest ih => simp [ih]

theorem hourOf_lt (t : Int) : hourOf t < 24 := by
  unfold hourOf
  have h1 : 0 ≤ (t.ediv 3600000).emod 24 := Int.emod_nonneg _ (by norm_num)
  have h2 : (t.ediv 3600000).emod 24 < 24 := Int.emod_lt_of_pos _ (by norm_num)
  omega

theorem countBy_ne_zero_of_mem (store : List Outage) (f : Outage → Nat)
    (x : Outage) (hx : x ∈ store) : countBy store f (f x) ≠ 0 := by
  have hmem : x ∈ store.filter (fun o => f o == f x) :=
    List.mem_filter.2 ⟨hx, by simp⟩
  have := List.length_pos.2 (List.ne_nil_of_mem hmem)
  unfold countBy
  omega

theorem presentKeys_ne_nil (store : List Outage) (f : Outage → Nat)
    (bound : Nat) (x : Outage) (hx : x ∈ store) (hb : f x < bound) :
    presentKeys store f bound ≠ [] := by
  have hmem : f x ∈ presentKeys store f bound := by
    unfold presentKeys
    refine List.mem_filter.2 ⟨List.mem_range.2 hb, ?_⟩
    simpa using countBy_ne_zero_of_mem store f x hx
  exact List.ne_nil_of_mem hmem

/- ------------------------------------------------------------------ -/
/- Claim theorems                                                     -/
/- ------------------------------------------------------------------ -/

/-- C1: for every valid report (service, area, downTime all present)
matching an existing ongoing outage with the same service and area,
`reportOutage` increments that record's `confirmCount` by exactly 1,
creates no new record (the store's length is unchanged), sets
`confidenceLevel` by the mapping `count ≥ 3 → confirmed, count = 2 →
likely, otherwise unverified`, and returns the "confirmation added"
signal, which is distinct from every "new outage created" result. -/
theorem reportOutage_confirms_existing (store : List Outage) (body : ReportBody)
    (now : Int) (freshId : Nat) (s : Service) (a : String) (dt : Int) (ex : Outage)
    (hbody : body = { service := some s, area := some a, downTime := some dt })
    (ha : a ≠ "")
    (hex : findOngoing store s a = some ex) :
    ∃ u, (reportOutage store body now freshId).1 = .confirmationAdded u ∧
      (∀ o, (reportOutage store body now freshId).1 ≠ .created o) ∧
      u.confirmCount = ex.confirmCount + 1 ∧
      u.confidenceLevel =
        (if ex.confirmCount + 1 ≥ 3 then Confidence.confirmed
         else if ex.confirmCount + 1 = 2 then Confidence.likely
         else Confidence.unverified) ∧
      (reportOutage store body now freshId).2.length = store.length := by
  subst hbody
  have hr : reportOutage store ⟨some s, some a, some dt⟩ now freshId =
      (.confirmationAdded { ex with
          confirmCount := ex.confirmCount + 1
          confidenceLevel := getConfidenceLevel (ex.confirmCount + 1) },
       updateById store ex.id { ex with
          confirmCount := ex.confirmCount + 1
          confidenceLevel := getConfidenceLevel (ex.confirmCount + 1) }) := by
    simp [reportOutage, ha, hex]
  rw [hr]
  refine ⟨_, rfl, ?_, rfl, rfl, ?_⟩
  · intro o hcontra
    cases hcontra
  · simp [updateById]

/-- Witness for C1: reporting Internet down in area "X" while fixture
`oA` is ongoing there yields a confirmation with count 2 and level
"likely", leaving the store at one record. -/
theorem reportOutage_confirms_existing_witness :
    ∃ u, (reportOutage [oA]
        { service := some .internet, area := some "X", downTime := some 999 }
        5 7).1 = .confirmationAdded u ∧
      (∀ o, (reportOutage [oA]
        { service := some .internet, area := some "X", downTime := some 999 }
        5 7).1 ≠ .created o) ∧
      u.confirmCount = oA.confirmCount + 1 ∧
      u.confidenceLevel =
        (if oA.confirmCount + 1 ≥ 3 then Confidence.confirmed
         else if oA.confirmCount + 1 = 2 then Confidence.likely
         else Confidence.unverified) ∧
      (reportOutage [oA]
        { service := some .internet, area := some "X", downTime := some 999 }
        5 7).2.length = ([oA] : List Outage).length :=
  reportOutage_confirms_existing [oA] _ 5 7 .internet "X" 999 oA rfl
    (by decide) (by decide)

/-- C2: for every valid report with no existing ongoing outage matching
(service, area), `reportOutage` creates and returns a new record with
`confirmCount = 1`, `confidenceLevel = unverified`, `status = ongoing`,
`upTime = null` and `durationMinutes = null`. -/
theorem reportOutage_creates_new (store : List Outage) (body : ReportBody)
    (now : Int) (freshId : Nat) (s : Service) (a : String) (dt : Int)
    (hbody : body = { service := some s, area := some a, downTime := some dt })
    (ha : a ≠ "")
    (hnone : findOngoing store s a = none) :
    ∃ o, reportOutage store body now freshId = (.created o, store ++ [o]) ∧
      o.confirmCount = 1 ∧ o.confidenceLevel = .unverified ∧
      o.status = .ongoing ∧ o.upTime = none ∧ o.durationMinutes = none := by
  subst hbody
  refine ⟨{ id := freshId, service := s, area := a, downTime := dt
            upTime := none, durationMinutes := none, status := .ongoing
            confirmCount := 1, confidenceLevel := .unverified, createdAt := now },
          ?_, rfl, rfl, rfl, rfl, rfl⟩
  simp [reportOutage, ha, hnone]

/-- Witness for C2: reporting Internet down in area "Z" on an empty
store creates a fresh unverified ongoing record. -/
theorem reportOutage_creates_new_witness :
    ∃ o, reportOutage []
        { service := some .internet, area := some "Z", downTime := some 42 }
        5 7 = (.created o, [] ++ [o]) ∧
      o.confirmCount = 1 ∧ o.confidenceLevel = .unverified ∧
      o.status = .ongoing ∧ o.upTime = none ∧ o.durationMinutes = none :=
  reportOutage_creates_new [] _ 5 7 .internet "Z" 42 rfl (by decide) (by decide)

/-- C3: restoring is a one-way transition.  If a restore call on an id
succeeds, a second restore of the same id fails with "Already resolved",
leaves the store exactly as it was, and the stored record — including
the `upTime` and `durationMinutes` set by the first call — is unchanged. -/
theorem restoreOutage_one_way (store : List Outage) (id : Nat) (t1 t2 : Int)
    (u : Outage) (store1 : List Outage)
    (h : restoreOutage store (.wellFormed id) t1 = (.restored u, store1)) :
    restoreOutage store1 (.wellFormed id) t2 = (.alreadyResolved, store1) ∧
    store1.find? (fun o => o.id == id) = some u ∧
    u.upTime = some t1 ∧ u.durationMinutes.isSome = true ∧
    u.status = .resolved := by
  simp only [restoreOutage] at h
  split at h
  · simp at h
  · rename_i o hf
    split at h
    · simp at h
    · rename_i hres
      simp only [Prod.mk.injEq, RestoreResult.restored.injEq] at h
      obtain ⟨hu, hst⟩ := h
      subst hu
      subst hst
      have hid : o.id = id := by
        have := List.find?_some hf
        simpa using this
      have hfind := find?_updateById store id
        { o with
          upTime := some t1,
          durationMinutes := some (((t1 : Rat) - (o.downTime : Rat)) / 60000),
          status := Status.resolved }
        hid (by simp [hf])
      exact ⟨by simp [restoreOutage, hfind], hfind, rfl, rfl, rfl⟩

/-- Witness for C3: restoring fixture `oA` (ongoing, id 1) and then
restoring id 1 again. -/
theorem restoreOutage_one_way_witness :
    restoreOutage (restoreOutage [oA] (.wellFormed 1) 3690000).2
        (.wellFormed 1) 9999999 =
      (.alreadyResolved, (restoreOutage [oA] (.wellFormed 1) 3690000).2) ∧
    (restoreOutage [oA] (.wellFormed 1) 3690000).2.find? (fun o => o.id == 1) =
      some rRestoredA ∧
    rRestoredA.upTime = some 3690000 ∧
    rRestoredA.durationMinutes.isSome = true ∧
    rRestoredA.status = .resolved :=
  restoreOutage_one_way [oA] 1 3690000 9999999 rRestoredA
    (restoreOutage [oA] (.wellFormed 1) 3690000).2 rfl

/-- C4: a successful restore of an ongoing outage sets `upTime` to the
current time, `status` to resolved, and `durationMinutes` to the exact
(unrounded) quotient of the elapsed milliseconds by 60000: the stored
duration times 60000 recovers `upTime − downTime` exactly. -/
theorem restoreOutage_sets_duration (store : List Outage) (id : Nat)
    (now : Int) (o : Outage)
    (hf : store.find? (fun o => o.id == id) = some o)
    (hstat : o.status = .ongoing) :
    ∃ u d, (restoreOutage store (.wellFormed id) now).1 = .restored u ∧
      u.upTime = some now ∧ u.status = .resolved ∧
      u.durationMinutes = some d ∧
      d * 60000 = (now : Rat) - (o.downTime : Rat) := by
  refine ⟨{ o with
            upTime := some now,
            durationMinutes := some (((now : Rat) - (o.downTime : Rat)) / 60000),
            status := .resolved },
          ((now : Rat) - (o.downTime : Rat)) / 60000, ?_, rfl, rfl, rfl, ?_⟩
  · have : (o.status == Status.resolved) = false := by simp [hstat]
    simp [restoreOutage, hf, this]
  · exact div_mul_cancel₀ _ (by norm_num)

/-- Witness for C4: restoring fixture `oA` 90 seconds after its
`downTime` stores a duration of exactly 1.5 minutes worth of elapsed
milliseconds. -/
theorem restoreOutage_sets_duration_witness :
    ∃ u d, (restoreOutage [oA] (.wellFormed 1) 3690000).1 = .restored u ∧
      u.upTime = some 3690000 ∧ u.status = .resolved ∧
      u.durationMinutes = some d ∧
      d * 60000 = ((3690000 : Int) : Rat) - (oA.downTime : Rat) :=
  restoreOutage_sets_duration [oA] 1 3690000 oA (by decide) rfl

/-- C5: whenever the supplied secret differs from the configured admin
secret, `deleteOutage` fails with Forbidden and changes nothing; the
statement quantifies over every id parameter — malformed ids and ids of
absent records included — because the authorization check runs before
the id-validity and existence checks. -/
theorem deleteOutage_forbidden_first (store : List Outage)
    (supplied configured : Option String) (rawId : RawId)
    (h : supplied ≠ configured) :
    deleteOutage store supplied configured rawId = (.forbidden, store) := by
  simp [deleteOutage, h]

/-- Witness for C5: a wrong secret on a malformed id is Forbidden. -/
theorem deleteOutage_forbidden_first_witness :
    deleteOutage [oA] (some "guess") (some "secret") (.malformed "zz") =
      (.forbidden, [oA]) :=
  deleteOutage_forbidden_first [oA] (some "guess") (some "secret")
    (.malformed "zz") (by decide)

/-- C8: with the correct secret and a well-formed id that matches no
stored record, `deleteOutage` succeeds with the deletion confirmation
and leaves the store unchanged — absence is indistinguishable from a
successful deletion. -/
theorem deleteOutage_missing_id_succeeds (store : List Outage)
    (secret : Option String) (id : Nat)
    (h : ∀ o ∈ store, o.id ≠ id) :
    deleteOutage store secret secret (.wellFormed id) = (.deleted, store) := by
  have hfilter : store.filter (fun o => o.id != id) = store :=
    List.filter_eq_self.2 (fun o ho => by simp [h o ho])
  simp [deleteOutage, hfilter]

/-- Witness for C8: deleting absent id 9 with the matching secret. -/
theorem deleteOutage_missing_id_succeeds_witness :
    deleteOutage [oA] (some "secret") (some "secret") (.wellFormed 9) =
      (.deleted, [oA]) :=
  deleteOutage_missing_id_succeeds [oA] (some "secret") 9 (by decide)

/-- C9 (implicit): with no admin secret configured, a request supplying
no secret at all passes the authorization check and deletes; in general
the Forbidden outcome occurs exactly when the supplied secret differs
from the configured one, not when a correct secret is missing. -/
theorem deleteOutage_absent_secret_passes (store : List Outage) (id : Nat)
    (supplied configured : Option String) (rawId : RawId) :
    (deleteOutage store none none (.wellFormed id)).1 = .deleted ∧
    ((deleteOutage store supplied configured rawId).1 = .forbidden ↔
      supplied ≠ configured) := by
  constructor
  · simp [deleteOutage]
  · by_cases h : supplied = configured
    · subst h
      cases rawId <;> simp [deleteOutage]
    · simp [deleteOutage, h]

/-- Witness for C9: an unauthenticated delete on an unconfigured server
succeeds. -/
theorem deleteOutage_absent_secret_passes_witness :
    (deleteOutage [oA] none none (.wellFormed 3)).1 = .deleted :=
  (deleteOutage_absent_secret_passes [oA] 3 (some "a") none (.malformed "q")).1

/-- C10 (implicit): when a report matches an existing ongoing outage, the
confirmation leaves every field other than `confirmCount` and
`confidenceLevel` unchanged — in particular the `downTime` supplied with
the confirming report (`dt`, arbitrary here) is discarded and the stored
`downTime` is preserved. -/
theorem reportOutage_confirm_frame (store : List Outage) (body : ReportBody)
    (now : Int) (freshId : Nat) (s : Service) (a : String) (dt : Int) (ex : Outage)
    (hbody : body = { service := some s, area := some a, downTime := some dt })
    (ha : a ≠ "")
    (hex : findOngoing store s a = some ex) :
    ∃ u, (reportOutage store body now freshId).1 = .confirmationAdded u ∧
      u.id = ex.id ∧ u.service = ex.service ∧ u.area = ex.area ∧
      u.downTime = ex.downTime ∧ u.upTime = ex.upTime ∧
      u.durationMinutes = ex.durationMinutes ∧ u.status = ex.status ∧
      u.createdAt = ex.createdAt := by
  subst hbody
  have hr : (reportOutage store ⟨some s, some a, some dt⟩ now freshId).1 =
      .confirmationAdded { ex with
          confirmCount := ex.confirmCount + 1
          confidenceLevel := getConfidenceLevel (ex.confirmCount + 1) } := by
    simp [reportOutage, ha, hex]
  exact ⟨_, hr, rfl, rfl, rfl, rfl, rfl, rfl, rfl, rfl⟩

/-- Witness for C10: confirming fixture `oA` with a report whose
`downTime` (999) differs from the stored one leaves all frame fields of
`oA` intact. -/
theorem reportOutage_confirm_frame_witness :
    ∃ u, (reportOutage [oA]
        { service := some .internet, area := some "X", downTime := some 999 }
        5 7).1 = .confirmationAdded u ∧
      u.id = oA.id ∧ u.service = oA.service ∧ u.area = oA.area ∧
      u.downTime = oA.downTime ∧ u.upTime = oA.upTime ∧
      u.durationMinutes = oA.durationMinutes ∧ u.status = oA.status ∧
      u.createdAt = oA.createdAt :=
  reportOutage_confirm_frame [oA] _ 5 7 .internet "X" 999 oA rfl
    (by decide) (by decide)

/-- Unfolding of `computeStats` on a store with at least one resolved
outage: the response is the stats object built from the single-pass
fold. -/
theorem computeStats_eq (store : List Outage)
    (hne : (store.filter (fun o => o.status == Status.resolved)).isEmpty = false) :
    computeStats store = .stats
      { totalDowntimeMinutes := ((store.filter (fun o => o.status == Status.resolved)).foldl
          (fun acc o => (acc.1 + o.durationMinutes.getD 0,
            bump acc.2 o.service (o.durationMinutes.getD 0)))
          ((0 : Rat), ([] : List (Service × Rat)))).1,
        averageDowntimeMinutes := ((store.filter (fun o => o.status == Status.resolved)).foldl
          (fun acc o => (acc.1 + o.durationMinutes.getD 0,
            bump acc.2 o.service (o.durationMinutes.getD 0)))
          ((0 : Rat), ([] : List (Service × Rat)))).1 /
          ((store.filter (fun o => o.status == Status.resolved)).length : Rat),
        serviceWiseDowntime := ((store.filter (fun o => o.status == Status.resolved)).foldl
          (fun acc o => (acc.1 + o.durationMinutes.getD 0,
            bump acc.2 o.service (o.durationMinutes.getD 0)))
          ((0 : Rat), ([] : List (Service × Rat)))).2,
        reliabilityScores := (((store.filter (fun o => o.status == Status.resolved)).foldl
          (fun acc o => (acc.1 + o.durationMinutes.getD 0,
            bump acc.2 o.service (o.durationMinutes.getD 0)))
          ((0 : Rat), ([] : List (Service × Rat)))).2).map
          (fun p => (p.1, max 0 (100 - p.2 / 60 * 2))) } := by
  simp [computeStats, hne]

/-- C6: over zero resolved outages `computeStats` answers the empty
object; over a non-empty resolved set it answers a stats object whose
`totalDowntimeMinutes` is the sum of the durations, whose
`averageDowntimeMinutes` is that sum divided by the count, whose
`serviceWiseDowntime` maps each occurring service to the sum of its
durations, and whose `reliabilityScores` maps each such service total
`t` to `max 0 (100 − (t/60)·2)`. -/
theorem computeStats_correct (store : List Outage) :
    (store.filter (fun o => o.status == Status.resolved) = [] →
      computeStats store = .emptyObject) ∧
    (store.filter (fun o => o.status == Status.resolved) ≠ [] →
      ∃ st, computeStats store = .stats st ∧
        st.totalDowntimeMinutes =
          ((store.filter (fun o => o.status == Status.resolved)).map
            (fun o => o.durationMinutes.getD 0)).sum ∧
        st.averageDowntimeMinutes =
          ((store.filter (fun o => o.status == Status.resolved)).map
            (fun o => o.durationMinutes.getD 0)).sum /
            ((store.filter (fun o => o.status == Status.resolved)).length : Rat) ∧
        (∀ svc : Service,
          alookup svc st.serviceWiseDowntime =
            if (store.filter (fun o => o.status == Status.resolved)).any
                (fun o => o.service == svc)
            then some ((((store.filter (fun o => o.status == Status.resolved)).filter
                  (fun o => o.service == svc)).map
                  (fun o => o.durationMinutes.getD 0)).sum)
            else none) ∧
        (∀ svc : Service,
          alookup svc st.reliabilityScores =
            (alookup svc st.serviceWiseDowntime).map
              (fun t => max 0 (100 - t / 60 * 2)))) := by
  constructor
  · intro h
    simp [computeStats, h]
  · intro h
    have hne : (store.filter (fun o => o.status == Status.resolved)).isEmpty = false := by
      simpa [List.isEmpty_iff] using h
    refine ⟨_, computeStats_eq store hne, ?_, ?_, ?_, ?_⟩
    · simp [statsFold_fst]
    · simp [statsFold_fst]
    · intro svc
      simp only [statsFold_snd, alookup_foldl_bump]
      simp [alookup]
    · intro svc
      exact alookup_map_snd (fun t => max 0 (100 - t / 60 * 2)) _ svc

/-- Witness for C6: over resolved fixtures of 60 and 120 minutes (both
Internet) the totals are 180 and 90, service-wise downtime is 180, and
the reliability score is max 0 (100 − 3·2) = 94 via the mapping. -/
theorem computeStats_correct_witness :
    ∃ st, computeStats [rA, rB] = .stats st ∧
      st.totalDowntimeMinutes =
        ((([rA, rB] : List Outage).filter (fun o => o.status == Status.resolved)).map
          (fun o => o.durationMinutes.getD 0)).sum ∧
      st.averageDowntimeMinutes =
        ((([rA, rB] : List Outage).filter (fun o => o.status == Status.resolved)).map
          (fun o => o.durationMinutes.getD 0)).sum /
          ((([rA, rB] : List Outage).filter (fun o => o.status == Status.resolved)).length : Rat) ∧
      (∀ svc : Service,
        alookup svc st.serviceWiseDowntime =
          if (([rA, rB] : List Outage).filter (fun o => o.status == Status.resolved)).any
              (fun o => o.service == svc)
          then some (((((([rA, rB] : List Outage).filter (fun o => o.status == Status.resolved))).filter
                (fun o => o.service == svc)).map
                (fun o => o.durationMinutes.getD 0)).sum)
          else none) ∧
      (∀ svc : Service,
        alookup svc st.reliabilityScores =
          (alookup svc st.serviceWiseDowntime).map
            (fun t => max 0 (100 - t / 60 * 2))) :=
  (computeStats_correct [rA, rB]).2 (by simp [rA, rB, oA, oB])

/-- C7 (amended): `computeInsights` returns as `peakOutageHour` an hour
that occurs among the stored outages' `downTime` hours and achieves the
highest occurrence count, with ties broken by the **last** maximal key
encountered in the scan's iteration order (ascending hour, the order in
which JavaScript enumerates the integer-like keys of the tally object):
the peak hour is exactly `lastMaxKeySpec` of the ascending key list. -/
theorem computeInsights_peak_lastMax (store : List Outage) (h : store ≠ []) :
    ∃ i, computeInsights store = .insights i ∧
      some i.peakOutageHour =
        lastMaxKeySpec (countBy store (fun o => hourOf o.downTime))
          (presentKeys store (fun o => hourOf o.downTime) 24) ∧
      i.peakOutageHour ∈ presentKeys store (fun o => hourOf o.downTime) 24 ∧
      (∀ k ∈ presentKeys store (fun o => hourOf o.downTime) 24,
        countBy store (fun o => hourOf o.downTime) k ≤
          countBy store (fun o => hourOf o.downTime) i.peakOutageHour) := by
  obtain ⟨x, xs, rfl⟩ := List.exists_cons_of_ne_nil h
  have hkeys : presentKeys (x :: xs) (fun o => hourOf o.downTime) 24 ≠ [] :=
    presentKeys_ne_nil _ _ _ x (List.mem_cons_self _ _) (hourOf_lt _)
  cases hm : lastMaxKeySpec (countBy (x :: xs) (fun o => hourOf o.downTime))
      (presentKeys (x :: xs) (fun o => hourOf o.downTime) 24) with
  | none => exact absurd ((lastMax_eq_none _ _).1 hm) hkeys
  | some m =>
    have hje : jsMaxKey (countBy (x :: xs) (fun o => hourOf o.downTime))
        (presentKeys (x :: xs) (fun o => hourOf o.downTime) 24) = some m := by
      rw [jsMaxKey_eq_lastMax]
      exact hm
    refine ⟨{ peakOutageHour := (jsMaxKey (countBy (x :: xs) (fun o => hourOf o.downTime))
                (presentKeys (x :: xs) (fun o => hourOf o.downTime) 24)).getD 0,
              worstDayOfWeek := (jsMaxKey (countBy (x :: xs) (fun o => dayOf o.downTime))
                (presentKeys (x :: xs) (fun o => dayOf o.downTime) 7)).getD 0,
              recurringAreas := (x :: xs).foldl (fun m o => bump m o.area 1)
                ([] : List (String × Nat)) },
            ?_, ?_, ?_, ?_⟩
    · simp [computeInsights]
    · simp [hje]
    · simp only [hje, Option.getD_some]
      exact lastMax_mem _ _ _ hm
    · simp only [hje, Option.getD_some]
      exact lastMax_maximal _ _ _ hm

/-- Witness for C7 (amended): two outages in hours 1 and 2 (one each)
give peak hour 2, the last maximal key of the ascending key list. -/
theorem computeInsights_peak_lastMax_witness :
    ∃ i, computeInsights [oA, oB] = .insights i ∧
      some i.peakOutageHour =
        lastMaxKeySpec (countBy [oA, oB] (fun o => hourOf o.downTime))
          (presentKeys [oA, oB] (fun o => hourOf o.downTime) 24) ∧
      i.peakOutageHour ∈ presentKeys [oA, oB] (fun o => hourOf o.downTime) 24 ∧
      (∀ k ∈ presentKeys [oA, oB] (fun o => hourOf o.downTime) 24,
        countBy [oA, oB] (fun o => hourOf o.downTime) k ≤
          countBy [oA, oB] (fun o => hourOf o.downTime) i.peakOutageHour) :=
  computeInsights_peak_lastMax [oA, oB] (by decide)

/-- Counterexample to C7 as stated: with outages in hours 1 and 2, one
occurrence each, the handler reports peak hour 2 — the *last* maximal
key in iteration order — whereas the first-maximal tie-break named by
the claim picks hour 1. -/
theorem computeInsights_peak_not_firstMax :
    (computeInsights [oA, oB] = .insights
      { peakOutageHour := 2, worstDayOfWeek := 4,
        recurringAreas := [("X", 1), ("Y", 1)] }) ∧
    firstMaxKeySpec (countBy [oA, oB] (fun o => hourOf o.downTime))
      (presentKeys [oA, oB] (fun o => hourOf o.downTime) 24) = some 1 ∧
    (2 : Nat) ≠ 1 := by
  refine ⟨by decide, by decide, by decide⟩
